import Mathlib

/-!
Verification of the rocBLAS dispatch/validation shim layer: the batched GEMMT
wrapper (`rocblas_gemmt_batched.cpp`), the batched IAMAX wrapper
(`rocblas_iamax_batched.cpp`) and the strided-batched IAMIN wrapper.

The three translation units are pure plumbing around external collaborators
(handle, logging sinks, numerics validator, kernel templates, device memory
arena).  The shallow embedding below renders each `_impl` function as a pure
Lean function from the handle, the call arguments, and an oracle record for
the external collaborators, to an `Except` value: `Except.error` models a
C++ exception escaping the impl, and the `ok` payload carries the returned
status together with the ordered list of observable effects (log records,
numerics-validator invocations, kernel launches) the call performed.

Collaborators whose bodies are not part of the three translation units
(argument checkers, `rocblas_reduction_setup`, the device-memory-query macro,
the logging sinks, `exception_to_rocblas_status`) are modelled from the
specification; each such definition carries a doc comment starting with
`Modelled from the spec:`.
-/

/-- Status codes returned by every routine, from the fixed public enumeration
(success, invalid-handle, invalid-pointer, invalid-size, invalid-value,
memory-error, internal error, numerics failure, the workspace-size-query
sentinel, and the internal continue sentinel). -/
inductive rocblas_status where
  | success
  | invalid_handle
  | invalid_pointer
  | invalid_size
  | invalid_value
  | memory_error
  | internal_error
  | size_unchanged
  | check_numerics_fail
  | continue_status
deriving DecidableEq, Repr

/-- Host or device residence of the scalar operands alpha and beta. -/
inductive rocblas_pointer_mode where
  | host
  | device
deriving DecidableEq, Repr

/-- Logging-mode flags carried by the handle.  The C type is a bitmask
(`rocblas_layer_mode_log_trace | log_bench | log_profile`); it is embedded as
a record with one Boolean per flag. -/
structure rocblas_layer_mode_flags where
  log_trace : Bool
  log_bench : Bool
  log_profile : Bool
deriving DecidableEq, Repr

/-- The non-null part of a `rocblas_handle`: logging mode, numerics-check
enable flag, pointer mode, and whether the handle is in device-memory-size
query mode. -/
structure rocblas_handle_s where
  layer_mode : rocblas_layer_mode_flags
  check_numerics : Bool
  pointer_mode : rocblas_pointer_mode
  device_memory_size_query : Bool
deriving DecidableEq, Repr

/-- A `rocblas_handle` argument: `none` is a null handle. -/
def rocblas_handle := Option rocblas_handle_s

/-- The four numeric type instantiations (s = float, d = double,
c = float complex, z = double complex) each routine is exported for. -/
inductive RBType where
  | s
  | d
  | c
  | z
deriving DecidableEq, Repr

/-- An exception escaping a callee inside the impl, identified by an abstract
code so that distinct exceptions are distinguishable. -/
inductive RBExc where
  | exc (code : Nat)
deriving DecidableEq, Repr

/-- Per-type routine name table of `rocblas_gemmt_batched.cpp`. -/
def rocblas_gemmt_name : RBType → String
  | RBType.s => "rocblas_sgemmt_batched"
  | RBType.d => "rocblas_dgemmt_batched"
  | RBType.c => "rocblas_cgemmt_batched"
  | RBType.z => "rocblas_zgemmt_batched"

/-- Per-type routine name table of `rocblas_iamax_batched.cpp`. -/
def rocblas_iamax_batched_name : RBType → String
  | RBType.s => "rocblas_isamax_batched"
  | RBType.d => "rocblas_idamax_batched"
  | RBType.c => "rocblas_icamax_batched"
  | RBType.z => "rocblas_izamax_batched"

/-- Per-type routine name table of the strided-batched IAMIN translation
unit. -/
def rocblas_iamin_strided_batched_name : RBType → String
  | RBType.s => "rocblas_isamin_strided_batched"
  | RBType.d => "rocblas_idamin_strided_batched"
  | RBType.c => "rocblas_icamin_strided_batched"
  | RBType.z => "rocblas_izamin_strided_batched"

/-- Fill mode of the triangular update. -/
inductive rocblas_fill where
  | upper
  | lower
  | full
deriving DecidableEq, Repr

/-- Transpose mode of an input operand. -/
inductive rocblas_operation where
  | none
  | transpose
  | conjugate_transpose
deriving DecidableEq, Repr

/-- Modelled from the spec: `rocblas_fill_letter` (utility.hpp, not under
src/) maps a fill mode to its one-letter bench form; the expected bench line
of spec section 8 shows `U` for upper. -/
def rocblas_fill_letter : rocblas_fill → String
  | rocblas_fill.upper => "U"
  | rocblas_fill.lower => "L"
  | rocblas_fill.full => "F"

/-- Modelled from the spec: `rocblas_transpose_letter` (utility.hpp, not
under src/) maps a transpose mode to its one-letter bench form; the expected
bench line of spec section 8 shows `N` for none and `T` for transpose. -/
def rocblas_transpose_letter : rocblas_operation → String
  | rocblas_operation.none => "N"
  | rocblas_operation.transpose => "T"
  | rocblas_operation.conjugate_transpose => "C"

/-- Arguments of a gemmt_batched call after the handle, in declaration order.
Pointer arguments are embedded as optional abstract addresses; `none` is a
null pointer. -/
structure GemmtArgs where
  uplo : rocblas_fill
  transA : rocblas_operation
  transB : rocblas_operation
  n : Int
  k : Int
  alpha : Option Nat
  A : Option Nat
  lda : Int
  B : Option Nat
  ldb : Int
  beta : Option Nat
  C : Option Nat
  ldc : Int
  batch_count : Int
deriving DecidableEq, Repr

/-- Oracles for the external collaborators consumed by the gemmt impl:
the numerics validator (`rocblas_gemmt_check_numerics`, keyed by its
`is_input` flag), the computational kernel template
(`rocblas_internal_gemmt_template`), and the strings produced by the
precision table and the scalar-logging macros (which depend on the numeric
type and the handle pointer mode).  An `Except.error` oracle value models the
collaborator throwing. -/
structure GemmtExt where
  numerics : Bool → Except RBExc rocblas_status
  kernel : Except RBExc rocblas_status
  precision : String
  bench_alpha : String
  bench_beta : String

/-- One emitted diagnostic record.  The trace payload is abstracted to the
routine name; the bench record keeps the exact token list handed to
`log_bench`; the profile record keeps the exact key/value pairs handed to
`log_profile`. -/
inductive LogRecord where
  | trace (name : String)
  | bench (tokens : List String)
  | profile (name : String) (pairs : List (String × String))
deriving DecidableEq, Repr

/-- Observable effects of a gemmt_batched call, in program order. -/
inductive GemmtEvent where
  | log (rec : LogRecord)
  | numerics (is_input : Bool)
  | kernel_call
deriving DecidableEq, Repr

/-- Whether an event is a log emission. -/
def GemmtEvent.is_log : GemmtEvent → Bool
  | GemmtEvent.log _ => true
  | GemmtEvent.numerics _ => false
  | GemmtEvent.kernel_call => false

/-- The token list passed to `log_bench` by the gemmt impl, in source order
(lines 89-112 of `rocblas_gemmt_batched.cpp`). -/
def gemmtBenchTokens (ext : GemmtExt) (a : GemmtArgs) : List String :=
  ["./rocblas-bench -f gemmt_batched -r", ext.precision,
   "--uplo", rocblas_fill_letter a.uplo,
   "--transposeA", rocblas_transpose_letter a.transA,
   "--transposeB", rocblas_transpose_letter a.transB,
   "-n", toString a.n,
   "-k", toString a.k,
   ext.bench_alpha,
   "--lda", toString a.lda,
   "--ldb", toString a.ldb,
   ext.bench_beta,
   "--ldc", toString a.ldc,
   "--batch_count", toString a.batch_count]

/-- The key/value pairs passed to `log_profile` by the gemmt impl, in source
order (lines 114-134 of `rocblas_gemmt_batched.cpp`).  The key for the
`transB` value is the literal `--transposeB` in the source; all other keys
are bare names. -/
def gemmtProfilePairs (a : GemmtArgs) : List (String × String) :=
  [("uplo", rocblas_fill_letter a.uplo),
   ("transA", rocblas_transpose_letter a.transA),
   ("--transposeB", rocblas_transpose_letter a.transB),
   ("N", toString a.n),
   ("K", toString a.k),
   ("lda", toString a.lda),
   ("ldb", toString a.ldb),
   ("ldc", toString a.ldc),
   ("batch_count", toString a.batch_count)]

/-- Modelled from the spec: the `log_bench` sink (logging.hpp, not under
src/) renders its argument tokens as a single line joined by single spaces
(spec section 6: a single-line shell-invocable string of flag/value
tokens). -/
def log_bench_render : List String → String
  | [] => ""
  | [t] => t
  | t :: ts => t ++ " " ++ log_bench_render ts

/-- The log records emitted by the gemmt impl (lines 61-135 of
`rocblas_gemmt_batched.cpp`): under the combined layer-mode guard, a trace
record, then a bench record, then a profile record, each gated by its own
flag. -/
def gemmtLogEvents (tag : RBType) (ext : GemmtExt) (h : rocblas_handle_s) (a : GemmtArgs) :
    List GemmtEvent :=
  if h.layer_mode.log_trace || h.layer_mode.log_bench || h.layer_mode.log_profile then
    (if h.layer_mode.log_trace then
      [GemmtEvent.log (LogRecord.trace (rocblas_gemmt_name tag))]
    else [])
    ++ (if h.layer_mode.log_bench then
      [GemmtEvent.log (LogRecord.bench (gemmtBenchTokens ext a))]
    else [])
    ++ (if h.layer_mode.log_profile then
      [GemmtEvent.log (LogRecord.profile (rocblas_gemmt_name tag) (gemmtProfilePairs a))]
    else [])
  else []

/-- Modelled from the spec: the body of `rocblas_gemmt_arg_check` lives in
`rocblas_gemmt.hpp`, which is not under src/.  Spec section 4.1: the checker
returns continue, trivial success, or a specific failure.  Spec section 8
states the `batch_count == 0` quick return unconditionally (success without
dereferencing any data pointer, pointers may be null), so it is checked
first.  Enum-like arguments must be recognized values (`full` is not a valid
fill for a triangular update); dimensions are non-negative with each leading
dimension at least its dependent dimension; pointers are checked non-null
only when the quantity they address is referenced (alpha, A, B are skipped
when `k == 0`). -/
def rocblas_gemmt_arg_check (a : GemmtArgs) : rocblas_status :=
  if a.batch_count = 0 then rocblas_status.success
  else if a.uplo = rocblas_fill.full then rocblas_status.invalid_value
  else if a.n < 0 ∨ a.k < 0 ∨ a.batch_count < 0
      ∨ a.ldc < max 1 a.n
      ∨ a.lda < max 1 (if a.transA = rocblas_operation.none then a.n else a.k)
      ∨ a.ldb < max 1 (if a.transB = rocblas_operation.none then a.k else a.n) then
    rocblas_status.invalid_size
  else if a.n = 0 then rocblas_status.success
  else if a.C = none ∨ a.beta = none then rocblas_status.invalid_pointer
  else if a.k ≠ 0 ∧ (a.alpha = none ∨ a.A = none ∨ a.B = none) then
    rocblas_status.invalid_pointer
  else rocblas_status.continue_status

/-- The tail of the gemmt impl from the kernel call on (lines 172-221 of
`rocblas_gemmt_batched.cpp`): invoke the kernel template; on a non-success
kernel status return it at once; otherwise run the output numerics check
when enabled and return its failure status, else the kernel status.  The
returned event list holds only the events of this phase. -/
def gemmtKernelPhase (ext : GemmtExt) (h : rocblas_handle_s) :
    Except RBExc (rocblas_status × List GemmtEvent) :=
  match ext.kernel with
  | Except.error e => Except.error e
  | Except.ok status =>
    if status ≠ rocblas_status.success then
      Except.ok (status, [GemmtEvent.kernel_call])
    else if h.check_numerics then
      match ext.numerics false with
      | Except.error e => Except.error e
      | Except.ok s2 =>
        if s2 ≠ rocblas_status.success then
          Except.ok (s2, [GemmtEvent.kernel_call, GemmtEvent.numerics false])
        else
          Except.ok (status, [GemmtEvent.kernel_call, GemmtEvent.numerics false])
    else Except.ok (status, [GemmtEvent.kernel_call])

/-- Shallow embedding of `rocblas_gemmt_batched_impl` (lines 39-222 of
`rocblas_gemmt_batched.cpp`): null-handle check, device-memory-size query
short-circuit (the `RETURN_ZERO_DEVICE_MEMORY_SIZE_IF_QUERIED` macro is not
under src/ and is modelled from spec section 4.1 as returning the query
sentinel), logging, argument check, optional input numerics check, then the
kernel phase. -/
def rocblas_gemmt_batched_impl (tag : RBType) (ext : GemmtExt) (handle : rocblas_handle)
    (a : GemmtArgs) : Except RBExc (rocblas_status × List GemmtEvent) :=
  match handle with
  | none => Except.ok (rocblas_status.invalid_handle, [])
  | some h =>
    if h.device_memory_size_query then
      Except.ok (rocblas_status.size_unchanged, [])
    else
      let logEvs := gemmtLogEvents tag ext h a
      let arg_status := rocblas_gemmt_arg_check a
      if arg_status ≠ rocblas_status.continue_status then
        Except.ok (arg_status, logEvs)
      else if h.check_numerics then
        match ext.numerics true with
        | Except.error e => Except.error e
        | Except.ok s1 =>
          if s1 ≠ rocblas_status.success then
            Except.ok (s1, logEvs ++ [GemmtEvent.numerics true])
          else
            match gemmtKernelPhase ext h with
            | Except.error e => Except.error e
            | Except.ok r => Except.ok (r.1, (logEvs ++ [GemmtEvent.numerics true]) ++ r.2)
      else
        match gemmtKernelPhase ext h with
        | Except.error e => Except.error e
        | Except.ok r => Except.ok (r.1, logEvs ++ r.2)

/-- Modelled from the spec: `exception_to_rocblas_status` (handle.hpp, not
under src/) converts an exception caught at the C-ABI boundary to the
generic internal-error status (spec sections 4.4 and 7). -/
def exception_to_rocblas_status : rocblas_status :=
  rocblas_status.internal_error

/-- The exported C-ABI entry point generated by the `IMPL` macro of
`rocblas_gemmt_batched.cpp` (lines 237-266): call the impl inside a
try-block; an escaping exception is caught and converted, otherwise the
impl status is returned unchanged. -/
def rocblas_gemmt_batched_abi (tag : RBType) (ext : GemmtExt) (handle : rocblas_handle)
    (a : GemmtArgs) : rocblas_status :=
  match rocblas_gemmt_batched_impl tag ext handle a with
  | Except.ok r => r.1
  | Except.error _ => exception_to_rocblas_status

/-- Arguments handed to `rocblas_reduction_setup` after the handle, in its
parameter order: vector length, operand pointer, increment, stride, batch
count, and result-buffer pointer.  Pointer arguments are optional abstract
addresses; `none` is a null pointer. -/
structure RedArgs where
  n : Int
  x : Option Nat
  incx : Int
  stridex : Int
  batch_count : Int
  result : Option Nat
deriving DecidableEq, Repr

/-- Oracles for the external collaborators consumed by the two reduction
impls: the handle device-memory arena (`alloc` is the granted workspace
address, or `none` on acquisition failure) and the kernel template
(`rocblas_iamax_template` or `rocblas_iamin_template`); an `Except.error`
kernel value models the template throwing. -/
structure RedExt where
  alloc : Option Nat
  kernel : Except RBExc rocblas_status

/-- Observable effects of a reduction call, in program order: a log record
(payload abstracted to the routine name) or a kernel launch carrying the
workspace pointer the template received. -/
inductive RedEvent where
  | log_rec (name : String)
  | kernel_call (workspace : Option Nat)
deriving DecidableEq, Repr

/-- The log records emitted by `rocblas_reduction_setup` for a routine,
gated by the combined layer-mode flags of the handle. -/
def redLogEvents (h : rocblas_handle_s) (fn_name : String) : List RedEvent :=
  if h.layer_mode.log_trace || h.layer_mode.log_bench || h.layer_mode.log_profile then
    [RedEvent.log_rec fn_name]
  else []

/-- Modelled from the spec: the body of `rocblas_reduction_setup`
(rocblas_reduction_impl.hpp) is not under src/.  Spec sections 4.5, 4.1 and
2: null-handle check first, then the device-memory-size-query short-circuit,
then logging, then validation.  Spec section 3 requires `batch_count ≥ 0`
(zero is a valid no-op) and spec section 8 makes `batch_count == 0` return
success without dereferencing any data pointer; a non-positive length is
likewise trivially satisfied.  A negative increment is accepted (spec
section 4.1 allows it for reduction operand traversal).  Otherwise the
operand and result pointers must be non-null, and the setup acquires the
per-call workspace from the handle arena, returning the continue sentinel
with the workspace pointer populated, or the out-of-memory status when
acquisition fails.  The second and third components of the result are the
populated workspace pointer and the effects performed. -/
def rocblas_reduction_setup (ext : RedExt) (handle : rocblas_handle) (a : RedArgs)
    (fn_name : String) : rocblas_status × Option Nat × List RedEvent :=
  match handle with
  | none => (rocblas_status.invalid_handle, none, [])
  | some h =>
    if h.device_memory_size_query then
      (rocblas_status.size_unchanged, none, [])
    else
      let logs := redLogEvents h fn_name
      if a.batch_count < 0 then (rocblas_status.invalid_size, none, logs)
      else if a.n ≤ 0 ∨ a.batch_count = 0 then (rocblas_status.success, none, logs)
      else if a.x = none ∨ a.result = none then (rocblas_status.invalid_pointer, none, logs)
      else
        match ext.alloc with
        | none => (rocblas_status.memory_error, none, logs)
        | some w => (rocblas_status.continue_status, some w, logs)

/-- Shallow embedding of `rocblas_iamax_batched_impl` (lines 22-54 of
`rocblas_iamax_batched.cpp`): run the reduction setup with a zero stride;
on any status other than the continue sentinel return it unchanged without
dispatching; otherwise invoke the kernel template with the populated
workspace and return its status. -/
def rocblas_iamax_batched_impl (tag : RBType) (ext : RedExt) (handle : rocblas_handle)
    (n : Int) (x : Option Nat) (incx : Int) (batch_count : Int) (result : Option Nat) :
    Except RBExc (rocblas_status × List RedEvent) :=
  let setup := rocblas_reduction_setup ext handle
    ⟨n, x, incx, 0, batch_count, result⟩ (rocblas_iamax_batched_name tag)
  if setup.1 ≠ rocblas_status.continue_status then
    Except.ok (setup.1, setup.2.2)
  else
    match ext.kernel with
    | Except.error e => Except.error e
    | Except.ok s => Except.ok (s, setup.2.2 ++ [RedEvent.kernel_call setup.2.1])

/-- Shallow embedding of `rocblas_iamin_strided_batched_impl` (lines 24-56
of the strided-batched IAMIN translation unit): identical to the batched
IAMAX impl except for the caller-supplied stride and the routine name. -/
def rocblas_iamin_strided_batched_impl (tag : RBType) (ext : RedExt) (handle : rocblas_handle)
    (n : Int) (x : Option Nat) (incx : Int) (stridex : Int) (batch_count : Int)
    (result : Option Nat) : Except RBExc (rocblas_status × List RedEvent) :=
  let setup := rocblas_reduction_setup ext handle
    ⟨n, x, incx, stridex, batch_count, result⟩ (rocblas_iamin_strided_batched_name tag)
  if setup.1 ≠ rocblas_status.continue_status then
    Except.ok (setup.1, setup.2.2)
  else
    match ext.kernel with
    | Except.error e => Except.error e
    | Except.ok s => Except.ok (s, setup.2.2 ++ [RedEvent.kernel_call setup.2.1])

/-- The exported C-ABI entry point generated by the `IMPL` macro of
`rocblas_iamax_batched.cpp` (lines 70-89): the impl inside a try-block, an
escaping exception caught and converted, otherwise the impl status
returned unchanged. -/
def rocblas_iamax_batched_abi (tag : RBType) (ext : RedExt) (handle : rocblas_handle)
    (n : Int) (x : Option Nat) (incx : Int) (batch_count : Int) (result : Option Nat) :
    rocblas_status :=
  match rocblas_iamax_batched_impl tag ext handle n x incx batch_count result with
  | Except.ok r => r.1
  | Except.error _ => exception_to_rocblas_status

/-- The exported C-ABI entry point generated by the `IMPL` macro of the
strided-batched IAMIN translation unit (lines 72-94). -/
def rocblas_iamin_strided_batched_abi (tag : RBType) (ext : RedExt) (handle : rocblas_handle)
    (n : Int) (x : Option Nat) (incx : Int) (stridex : Int) (batch_count : Int)
    (result : Option Nat) : rocblas_status :=
  match rocblas_iamin_strided_batched_impl tag ext handle n x incx stridex batch_count result with
  | Except.ok r => r.1
  | Except.error _ => exception_to_rocblas_status

/-- Every record produced by the gemmt logging phase is a log emission, so
filtering the log events away from it leaves nothing. -/
theorem gemmtLogEvents_filter_non_log (tag : RBType) (ext : GemmtExt)
    (h : rocblas_handle_s) (a : GemmtArgs) :
    (gemmtLogEvents tag ext h a).filter (fun e => !e.is_log) = [] := by
  unfold gemmtLogEvents
  split_ifs <;> simp [GemmtEvent.is_log]

/-- With all three logging flags cleared the gemmt logging phase emits
nothing. -/
theorem gemmtLogEvents_all_off (tag : RBType) (ext : GemmtExt) (cn : Bool)
    (pm : rocblas_pointer_mode) (dq : Bool) (a : GemmtArgs) :
    gemmtLogEvents tag ext ⟨⟨false, false, false⟩, cn, pm, dq⟩ a = [] := rfl

/-- The kernel phase of the gemmt impl depends on the handle only through the
numerics-check flag. -/
theorem gemmtKernelPhase_congr (ext : GemmtExt) (h1 h2 : rocblas_handle_s)
    (hcn : h1.check_numerics = h2.check_numerics) :
    gemmtKernelPhase ext h1 = gemmtKernelPhase ext h2 := by
  unfold gemmtKernelPhase
  rw [hcn]

/-- The kernel phase emits no log record, so filtering the log events away
from its effects keeps them all. -/
theorem gemmtKernelPhase_ok_no_log (ext : GemmtExt) (h : rocblas_handle_s)
    (r : rocblas_status × List GemmtEvent) (hr : gemmtKernelPhase ext h = Except.ok r) :
    r.2.filter (fun e => !e.is_log) = r.2 := by
  unfold gemmtKernelPhase at hr
  split at hr
  · simp at hr
  · split_ifs at hr
    · injection hr with hr2
      subst hr2
      simp [GemmtEvent.is_log]
    · split at hr
      · simp at hr
      · split_ifs at hr <;>
          (injection hr with hr2; subst hr2; simp [GemmtEvent.is_log])
    · injection hr with hr2
      subst hr2
      simp [GemmtEvent.is_log]

/-- Concrete external-collaborator oracles used to witness theorems at a
specific input: all collaborators succeed. -/
def extW : GemmtExt :=
  ⟨fun _ => Except.ok rocblas_status.success, Except.ok rocblas_status.success,
   "f32_r", "--alpha 1", "--beta 0"⟩

/-- Concrete gemmt argument set from the bench-log property of the spec:
uplo upper, transA none, transB transpose, n 4, k 3, lda 4, ldb 3, ldc 4,
batch_count 2, all pointers non-null. -/
def aW : GemmtArgs :=
  ⟨rocblas_fill.upper, rocblas_operation.none, rocblas_operation.transpose,
   4, 3, some 10, some 11, 4, some 12, 3, some 13, some 14, 4, 2⟩

/-- Concrete reduction oracles: workspace granted at an abstract address,
kernel succeeds. -/
def redExtW : RedExt := ⟨some 100, Except.ok rocblas_status.success⟩

/-- C1: for every routine (gemmt_batched, iamax_batched,
iamin_strided_batched), every type instantiation and every choice of the
remaining arguments, a null-handle call returns the invalid-handle status
with an empty effect trace: no log record is emitted, no numerics check is
invoked, and the kernel template is never called. -/
theorem null_handle_rejected_before_any_effect :
    (∀ (tag : RBType) (ext : GemmtExt) (a : GemmtArgs),
      rocblas_gemmt_batched_impl tag ext none a
        = Except.ok (rocblas_status.invalid_handle, ([] : List GemmtEvent)))
    ∧ (∀ (tag : RBType) (ext : RedExt) (n : Int) (x : Option Nat) (incx : Int)
        (batch_count : Int) (result : Option Nat),
      rocblas_iamax_batched_impl tag ext none n x incx batch_count result
        = Except.ok (rocblas_status.invalid_handle, ([] : List RedEvent)))
    ∧ (∀ (tag : RBType) (ext : RedExt) (n : Int) (x : Option Nat) (incx : Int)
        (stridex : Int) (batch_count : Int) (result : Option Nat),
      rocblas_iamin_strided_batched_impl tag ext none n x incx stridex batch_count result
        = Except.ok (rocblas_status.invalid_handle, ([] : List RedEvent))) := by
  refine ⟨fun tag ext a => rfl, fun tag ext n x incx bc res => rfl,
    fun tag ext n x incx sx bc res => rfl⟩

/-- C2: with a non-null handle in device-memory-size query mode, every
routine returns the query sentinel immediately after the null-handle check
with an empty effect trace: no logging, no argument-validation effect, no
numerics check, no result-buffer write, no kernel dispatch, for any
dimension combination. -/
theorem size_query_short_circuits_before_all_effects
    (h : rocblas_handle_s) (hq : h.device_memory_size_query = true) :
    (∀ (tag : RBType) (ext : GemmtExt) (a : GemmtArgs),
      rocblas_gemmt_batched_impl tag ext (some h) a
        = Except.ok (rocblas_status.size_unchanged, ([] : List GemmtEvent)))
    ∧ (∀ (tag : RBType) (ext : RedExt) (n : Int) (x : Option Nat) (incx : Int)
        (batch_count : Int) (result : Option Nat),
      rocblas_iamax_batched_impl tag ext (some h) n x incx batch_count result
        = Except.ok (rocblas_status.size_unchanged, ([] : List RedEvent)))
    ∧ (∀ (tag : RBType) (ext : RedExt) (n : Int) (x : Option Nat) (incx : Int)
        (stridex : Int) (batch_count : Int) (result : Option Nat),
      rocblas_iamin_strided_batched_impl tag ext (some h) n x incx stridex batch_count result
        = Except.ok (rocblas_status.size_unchanged, ([] : List RedEvent))) := by
  refine ⟨fun tag ext a => ?_, fun tag ext n x incx bc res => ?_,
    fun tag ext n x incx sx bc res => ?_⟩
  · simp [rocblas_gemmt_batched_impl, hq]
  · simp [rocblas_iamax_batched_impl, rocblas_reduction_setup, hq]
  · simp [rocblas_iamin_strided_batched_impl, rocblas_reduction_setup, hq]

/-- Concrete handle in device-memory-size query mode. -/
def hQueryW : rocblas_handle_s :=
  ⟨⟨false, false, false⟩, false, rocblas_pointer_mode.host, true⟩

/-- Witness for C2 at a concrete query-mode handle and concrete arguments. -/
theorem size_query_short_circuits_before_all_effects_witness :
    hQueryW.device_memory_size_query = true
    ∧ rocblas_gemmt_batched_impl RBType.s extW (some hQueryW) aW
        = Except.ok (rocblas_status.size_unchanged, ([] : List GemmtEvent))
    ∧ rocblas_iamax_batched_impl RBType.s redExtW (some hQueryW) 4 (some 20) 1 2 (some 21)
        = Except.ok (rocblas_status.size_unchanged, ([] : List RedEvent)) :=
  ⟨rfl,
   (size_query_short_circuits_before_all_effects hQueryW rfl).1 RBType.s extW aW,
   (size_query_short_circuits_before_all_effects hQueryW rfl).2.1 RBType.s redExtW
     4 (some 20) 1 2 (some 21)⟩

/-- C3: for every gemmt_batched call past the null-handle and query
short-circuits, the trace, bench and profile records are each emitted
exactly when their handle flag is set; logging happens strictly before
argument validation, so a call that subsequently fails validation still
returns with exactly the enabled log records as its whole effect trace; and
logging alters neither the control flow nor the returned status: the same
call on the same handle with all logging disabled is the identical
computation with the log records removed from its effect trace. -/
theorem gemmt_logging_before_validation_and_transparent
    (tag : RBType) (ext : GemmtExt) (h : rocblas_handle_s) (a : GemmtArgs)
    (hq : h.device_memory_size_query = false) :
    ((GemmtEvent.log (LogRecord.trace (rocblas_gemmt_name tag)) ∈ gemmtLogEvents tag ext h a
        ↔ h.layer_mode.log_trace = true)
      ∧ (GemmtEvent.log (LogRecord.bench (gemmtBenchTokens ext a)) ∈ gemmtLogEvents tag ext h a
        ↔ h.layer_mode.log_bench = true)
      ∧ (GemmtEvent.log (LogRecord.profile (rocblas_gemmt_name tag) (gemmtProfilePairs a))
            ∈ gemmtLogEvents tag ext h a
        ↔ h.layer_mode.log_profile = true))
    ∧ (rocblas_gemmt_arg_check a ≠ rocblas_status.continue_status →
      rocblas_gemmt_batched_impl tag ext (some h) a
        = Except.ok (rocblas_gemmt_arg_check a, gemmtLogEvents tag ext h a))
    ∧ (rocblas_gemmt_batched_impl tag ext
          (some ⟨⟨false, false, false⟩, h.check_numerics, h.pointer_mode,
            h.device_memory_size_query⟩) a
        = Except.map (fun r => (r.1, r.2.filter (fun e => !e.is_log)))
            (rocblas_gemmt_batched_impl tag ext (some h) a)) := by
  obtain ⟨⟨lt, lb, lp⟩, cn, pm, dq⟩ := h
  simp only at hq
  subst hq
  refine ⟨⟨?_, ?_, ?_⟩, ?_, ?_⟩
  · cases lt <;> cases lb <;> cases lp <;> simp [gemmtLogEvents]
  · cases lt <;> cases lb <;> cases lp <;> simp [gemmtLogEvents]
  · cases lt <;> cases lb <;> cases lp <;> simp [gemmtLogEvents]
  · intro harg
    simp [rocblas_gemmt_batched_impl, harg]
  · have hcons : ∀ (b : Bool) (l : List GemmtEvent),
        List.filter (fun e => !e.is_log) (GemmtEvent.numerics b :: l)
          = GemmtEvent.numerics b :: List.filter (fun e => !e.is_log) l :=
      fun b l => rfl
    by_cases harg : rocblas_gemmt_arg_check a = rocblas_status.continue_status
    · cases cn with
      | false =>
        have hphase := gemmtKernelPhase_congr ext
          ⟨⟨false, false, false⟩, false, pm, false⟩ ⟨⟨lt, lb, lp⟩, false, pm, false⟩ rfl
        cases hk : gemmtKernelPhase ext ⟨⟨lt, lb, lp⟩, false, pm, false⟩ with
        | error e =>
          simp [rocblas_gemmt_batched_impl, harg, hphase, hk, Except.map,
            gemmtLogEvents_all_off]
        | ok r =>
          simp [rocblas_gemmt_batched_impl, harg, hphase, hk, Except.map,
            gemmtLogEvents_all_off, List.filter_append, gemmtLogEvents_filter_non_log,
            gemmtKernelPhase_ok_no_log ext _ r hk]
      | true =>
        have hphase := gemmtKernelPhase_congr ext
          ⟨⟨false, false, false⟩, true, pm, false⟩ ⟨⟨lt, lb, lp⟩, true, pm, false⟩ rfl
        cases hnum : ext.numerics true with
        | error e =>
          simp [rocblas_gemmt_batched_impl, harg, hnum, Except.map, gemmtLogEvents_all_off]
        | ok s1 =>
          by_cases hs1 : s1 = rocblas_status.success
          · subst hs1
            cases hk : gemmtKernelPhase ext ⟨⟨lt, lb, lp⟩, true, pm, false⟩ with
            | error e =>
              simp [rocblas_gemmt_batched_impl, harg, hnum, hphase, hk, Except.map,
                gemmtLogEvents_all_off]
            | ok r =>
              simp [rocblas_gemmt_batched_impl, harg, hnum, hphase, hk, Except.map,
                gemmtLogEvents_all_off, List.filter_append, gemmtLogEvents_filter_non_log,
                gemmtKernelPhase_ok_no_log ext _ r hk, hcons]
          · simp [rocblas_gemmt_batched_impl, harg, hnum, hs1, Except.map,
              gemmtLogEvents_all_off, List.filter_append, gemmtLogEvents_filter_non_log,
              hcons]
    · simp [rocblas_gemmt_batched_impl, harg, Except.map, gemmtLogEvents_all_off,
        gemmtLogEvents_filter_non_log]

/-- Concrete handle with all three logging flags set, numerics checking off,
not in query mode. -/
def hLogW : rocblas_handle_s :=
  ⟨⟨true, true, true⟩, false, rocblas_pointer_mode.host, false⟩

/-- Concrete gemmt argument set that fails validation (an unrecognized fill
mode with a positive batch count). -/
def aBadW : GemmtArgs :=
  ⟨rocblas_fill.full, rocblas_operation.none, rocblas_operation.transpose,
   4, 3, some 10, some 11, 4, some 12, 3, some 13, some 14, 4, 2⟩

/-- Witness for C3 at a concrete logging handle and a concrete argument set
that fails validation: the call still returns with all three log records
emitted. -/
theorem gemmt_logging_before_validation_and_transparent_witness :
    hLogW.device_memory_size_query = false
    ∧ rocblas_gemmt_batched_impl RBType.s extW (some hLogW) aBadW
        = Except.ok (rocblas_gemmt_arg_check aBadW, gemmtLogEvents RBType.s extW hLogW aBadW)
    ∧ rocblas_gemmt_arg_check aBadW = rocblas_status.invalid_value :=
  ⟨rfl,
   (gemmt_logging_before_validation_and_transparent RBType.s extW hLogW aBadW rfl).2.1
     (by decide),
   by decide⟩

/-- Every event in the gemmt logging phase is a log record. -/
theorem gemmtLogEvents_is_log (tag : RBType) (ext : GemmtExt) (h : rocblas_handle_s)
    (a : GemmtArgs) : ∀ e ∈ gemmtLogEvents tag ext h a, e.is_log = true := by
  intro e he
  have h0 := gemmtLogEvents_filter_non_log tag ext h a
  rw [List.filter_eq_nil_iff] at h0
  have h1 := h0 e he
  simpa using h1

/-- C4: in every gemmt_batched call with numerics checking enabled that
reaches the numerics phase, the validator runs on the inputs before kernel
dispatch and on the outputs after it: when the input check returns any
non-success status, that status is returned and the kernel template is never
invoked (no kernel event in the trace); when the whole call proceeds, the
effect trace is exactly log records, input check, kernel call, output check,
in that order. -/
theorem gemmt_numerics_input_checked_before_kernel
    (tag : RBType) (ext : GemmtExt) (h : rocblas_handle_s) (a : GemmtArgs)
    (hq : h.device_memory_size_query = false) (hcn : h.check_numerics = true)
    (harg : rocblas_gemmt_arg_check a = rocblas_status.continue_status) :
    (∀ s1, ext.numerics true = Except.ok s1 → s1 ≠ rocblas_status.success →
      rocblas_gemmt_batched_impl tag ext (some h) a
        = Except.ok (s1, gemmtLogEvents tag ext h a ++ [GemmtEvent.numerics true])
      ∧ GemmtEvent.kernel_call ∉ gemmtLogEvents tag ext h a ++ [GemmtEvent.numerics true])
    ∧ (ext.numerics true = Except.ok rocblas_status.success →
      ∀ ks, ext.kernel = Except.ok ks → ks = rocblas_status.success →
      ∀ s2, ext.numerics false = Except.ok s2 →
      rocblas_gemmt_batched_impl tag ext (some h) a
        = Except.ok ((if s2 ≠ rocblas_status.success then s2 else rocblas_status.success),
            gemmtLogEvents tag ext h a
              ++ [GemmtEvent.numerics true, GemmtEvent.kernel_call,
                  GemmtEvent.numerics false])) := by
  constructor
  · intro s1 hs1 hne
    constructor
    · simp [rocblas_gemmt_batched_impl, hq, hcn, harg, hs1, hne]
    · intro hmem
      rcases List.mem_append.1 hmem with hmem1 | hmem1
      · have := gemmtLogEvents_is_log tag ext h a _ hmem1
        simp [GemmtEvent.is_log] at this
      · simp at hmem1
  · intro h1 ks hks hkss s2 hs2
    subst hkss
    by_cases hs2e : s2 = rocblas_status.success <;>
      simp [rocblas_gemmt_batched_impl, gemmtKernelPhase, hq, hcn, harg, h1, hks, hs2, hs2e]

/-- C5: in every gemmt_batched call in which the kernel template returns a
non-success status, that status is returned to the caller unchanged and the
output numerics check is not attempted (no output-check event in the
trace), even when numerics checking is enabled. -/
theorem gemmt_kernel_failure_propagates_no_output_check
    (tag : RBType) (ext : GemmtExt) (h : rocblas_handle_s) (a : GemmtArgs)
    (hq : h.device_memory_size_query = false)
    (harg : rocblas_gemmt_arg_check a = rocblas_status.continue_status)
    (hin : h.check_numerics = true → ext.numerics true = Except.ok rocblas_status.success)
    (ks : rocblas_status) (hks : ext.kernel = Except.ok ks)
    (hne : ks ≠ rocblas_status.success) :
    rocblas_gemmt_batched_impl tag ext (some h) a
      = Except.ok (ks,
          (gemmtLogEvents tag ext h a
            ++ (if h.check_numerics then [GemmtEvent.numerics true] else []))
          ++ [GemmtEvent.kernel_call])
    ∧ GemmtEvent.numerics false ∉
        (gemmtLogEvents tag ext h a
          ++ (if h.check_numerics then [GemmtEvent.numerics true] else []))
        ++ [GemmtEvent.kernel_call] := by
  constructor
  · cases hcn : h.check_numerics with
    | false =>
      simp [rocblas_gemmt_batched_impl, gemmtKernelPhase, hq, hcn, harg, hks, hne]
    | true =>
      simp [rocblas_gemmt_batched_impl, gemmtKernelPhase, hq, hcn, harg, hin hcn, hks, hne]
  · intro hmem
    rcases List.mem_append.1 hmem with hmem1 | hmem1
    · rcases List.mem_append.1 hmem1 with hmem2 | hmem2
      · have := gemmtLogEvents_is_log tag ext h a _ hmem2
        simp [GemmtEvent.is_log] at this
      · by_cases hcn : h.check_numerics <;> simp [hcn] at hmem2
    · simp at hmem1

/-- Concrete handle with numerics checking enabled, logging off, not in
query mode. -/
def hNumW : rocblas_handle_s :=
  ⟨⟨false, false, false⟩, true, rocblas_pointer_mode.host, false⟩

/-- Concrete gemmt argument set that passes validation and reaches the
kernel phase. -/
def aOkW : GemmtArgs :=
  ⟨rocblas_fill.upper, rocblas_operation.none, rocblas_operation.none,
   4, 3, some 10, some 11, 4, some 12, 3, some 13, some 14, 4, 2⟩

/-- Concrete oracles where the input numerics check reports a failure (an
input buffer containing NaN) while every other collaborator succeeds. -/
def extNanW : GemmtExt :=
  ⟨fun b => if b then Except.ok rocblas_status.check_numerics_fail
    else Except.ok rocblas_status.success,
   Except.ok rocblas_status.success, "f32_r", "--alpha 1", "--beta 0"⟩

/-- Witness for C4: with numerics checking enabled and a failing input
check, the concrete call returns the numerics failure and its trace holds
no kernel event. -/
theorem gemmt_numerics_input_checked_before_kernel_witness :
    hNumW.device_memory_size_query = false
    ∧ hNumW.check_numerics = true
    ∧ rocblas_gemmt_arg_check aOkW = rocblas_status.continue_status
    ∧ rocblas_gemmt_batched_impl RBType.s extNanW (some hNumW) aOkW
        = Except.ok (rocblas_status.check_numerics_fail,
            gemmtLogEvents RBType.s extNanW hNumW aOkW ++ [GemmtEvent.numerics true])
    ∧ GemmtEvent.kernel_call
        ∉ gemmtLogEvents RBType.s extNanW hNumW aOkW ++ [GemmtEvent.numerics true] :=
  ⟨rfl, rfl, by decide,
   ((gemmt_numerics_input_checked_before_kernel RBType.s extNanW hNumW aOkW rfl rfl
      (by decide)).1 rocblas_status.check_numerics_fail rfl (by decide)).1,
   ((gemmt_numerics_input_checked_before_kernel RBType.s extNanW hNumW aOkW rfl rfl
      (by decide)).1 rocblas_status.check_numerics_fail rfl (by decide)).2⟩

/-- Concrete oracles where the kernel template reports a device failure
while the numerics validator succeeds. -/
def extKernFailW : GemmtExt :=
  ⟨fun _ => Except.ok rocblas_status.success, Except.ok rocblas_status.internal_error,
   "f32_r", "--alpha 1", "--beta 0"⟩

/-- Witness for C5: the concrete kernel failure status is returned unchanged
and the trace holds no output numerics check, with numerics checking
enabled. -/
theorem gemmt_kernel_failure_propagates_no_output_check_witness :
    hNumW.device_memory_size_query = false
    ∧ rocblas_gemmt_arg_check aOkW = rocblas_status.continue_status
    ∧ rocblas_status.internal_error ≠ rocblas_status.success
    ∧ rocblas_gemmt_batched_impl RBType.s extKernFailW (some hNumW) aOkW
        = Except.ok (rocblas_status.internal_error,
            (gemmtLogEvents RBType.s extKernFailW hNumW aOkW
              ++ (if hNumW.check_numerics then [GemmtEvent.numerics true] else []))
            ++ [GemmtEvent.kernel_call])
    ∧ GemmtEvent.numerics false
        ∉ (gemmtLogEvents RBType.s extKernFailW hNumW aOkW
            ++ (if hNumW.check_numerics then [GemmtEvent.numerics true] else []))
          ++ [GemmtEvent.kernel_call] :=
  ⟨rfl, by decide, by decide,
   (gemmt_kernel_failure_propagates_no_output_check RBType.s extKernFailW hNumW aOkW rfl
      (by decide) (fun _ => rfl) rocblas_status.internal_error rfl (by decide)).1,
   (gemmt_kernel_failure_propagates_no_output_check RBType.s extKernFailW hNumW aOkW rfl
      (by decide) (fun _ => rfl) rocblas_status.internal_error rfl (by decide)).2⟩

/-- When the kernel template and the numerics validator both return rather
than throw, the gemmt kernel phase completes normally. -/
theorem gemmtKernelPhase_ok_of_oracles (ext : GemmtExt) (h : rocblas_handle_s)
    (hk : ∃ ks, ext.kernel = Except.ok ks)
    (hn : ∀ b, ∃ ns, ext.numerics b = Except.ok ns) :
    ∃ r, gemmtKernelPhase ext h = Except.ok r := by
  obtain ⟨ks, hks⟩ := hk
  obtain ⟨ns2, hn2⟩ := hn false
  by_cases hkss : ks = rocblas_status.success <;>
    by_cases hcn : h.check_numerics = true <;>
      by_cases hns2 : ns2 = rocblas_status.success <;>
        simp [gemmtKernelPhase, hks, hn2, hkss, hcn, hns2]

/-- When every external collaborator returns rather than throws, the gemmt
impl completes normally. -/
theorem gemmt_impl_ok_of_oracles (tag : RBType) (ext : GemmtExt) (handle : rocblas_handle)
    (a : GemmtArgs) (hk : ∃ ks, ext.kernel = Except.ok ks)
    (hn : ∀ b, ∃ ns, ext.numerics b = Except.ok ns) :
    ∃ r, rocblas_gemmt_batched_impl tag ext handle a = Except.ok r := by
  cases handle with
  | none => exact ⟨_, rfl⟩
  | some h =>
    obtain ⟨ns1, hn1⟩ := hn true
    obtain ⟨r, hr⟩ := gemmtKernelPhase_ok_of_oracles ext h hk hn
    by_cases hq : h.device_memory_size_query = true <;>
      by_cases harg : rocblas_gemmt_arg_check a = rocblas_status.continue_status <;>
        by_cases hcn : h.check_numerics = true <;>
          by_cases hns1 : ns1 = rocblas_status.success <;>
            simp [rocblas_gemmt_batched_impl, hn1, hr, hq, harg, hcn, hns1]

/-- When the reduction kernel template returns rather than throws, the
batched IAMAX impl completes normally. -/
theorem iamax_impl_ok_of_oracles (tag : RBType) (ext : RedExt) (handle : rocblas_handle)
    (n : Int) (x : Option Nat) (incx : Int) (batch_count : Int) (result : Option Nat)
    (hk : ∃ ks, ext.kernel = Except.ok ks) :
    ∃ r, rocblas_iamax_batched_impl tag ext handle n x incx batch_count result
      = Except.ok r := by
  obtain ⟨ks, hks⟩ := hk
  simp only [rocblas_iamax_batched_impl]
  rw [hks]
  split_ifs <;> simp

/-- When the reduction kernel template returns rather than throws, the
strided-batched IAMIN impl completes normally. -/
theorem iamin_impl_ok_of_oracles (tag : RBType) (ext : RedExt) (handle : rocblas_handle)
    (n : Int) (x : Option Nat) (incx : Int) (stridex : Int) (batch_count : Int)
    (result : Option Nat) (hk : ∃ ks, ext.kernel = Except.ok ks) :
    ∃ r, rocblas_iamin_strided_batched_impl tag ext handle n x incx stridex batch_count result
      = Except.ok r := by
  obtain ⟨ks, hks⟩ := hk
  simp only [rocblas_iamin_strided_batched_impl]
  rw [hks]
  split_ifs <;> simp

/-- C6: for every exported C-ABI entry point of the three routines, an
exception escaping the call chain is caught exactly once at the boundary
and converted to a status code, so no exception crosses the public
boundary; when no exception escapes, the exported function returns exactly
the status of the internal impl; and when every external collaborator
returns rather than throws, the impl itself completes normally. -/
theorem abi_catches_exceptions_returns_impl_status
    (tag : RBType) (gext : GemmtExt) (rext : RedExt) (handle : rocblas_handle)
    (a : GemmtArgs) (n : Int) (x : Option Nat) (incx : Int) (stridex : Int)
    (batch_count : Int) (result : Option Nat) :
    ((∀ e, rocblas_gemmt_batched_impl tag gext handle a = Except.error e →
        rocblas_gemmt_batched_abi tag gext handle a = exception_to_rocblas_status)
      ∧ (∀ s evs, rocblas_gemmt_batched_impl tag gext handle a = Except.ok (s, evs) →
        rocblas_gemmt_batched_abi tag gext handle a = s)
      ∧ ((∃ ks, gext.kernel = Except.ok ks) → (∀ b, ∃ ns, gext.numerics b = Except.ok ns) →
        ∃ r, rocblas_gemmt_batched_impl tag gext handle a = Except.ok r))
    ∧ ((∀ e, rocblas_iamax_batched_impl tag rext handle n x incx batch_count result
          = Except.error e →
        rocblas_iamax_batched_abi tag rext handle n x incx batch_count result
          = exception_to_rocblas_status)
      ∧ (∀ s evs, rocblas_iamax_batched_impl tag rext handle n x incx batch_count result
          = Except.ok (s, evs) →
        rocblas_iamax_batched_abi tag rext handle n x incx batch_count result = s)
      ∧ ((∃ ks, rext.kernel = Except.ok ks) →
        ∃ r, rocblas_iamax_batched_impl tag rext handle n x incx batch_count result
          = Except.ok r))
    ∧ ((∀ e, rocblas_iamin_strided_batched_impl tag rext handle n x incx stridex batch_count
            result = Except.error e →
        rocblas_iamin_strided_batched_abi tag rext handle n x incx stridex batch_count result
          = exception_to_rocblas_status)
      ∧ (∀ s evs, rocblas_iamin_strided_batched_impl tag rext handle n x incx stridex
            batch_count result = Except.ok (s, evs) →
        rocblas_iamin_strided_batched_abi tag rext handle n x incx stridex batch_count result
          = s)
      ∧ ((∃ ks, rext.kernel = Except.ok ks) →
        ∃ r, rocblas_iamin_strided_batched_impl tag rext handle n x incx stridex batch_count
          result = Except.ok r)) := by
  refine ⟨⟨?_, ?_, ?_⟩, ⟨?_, ?_, ?_⟩, ⟨?_, ?_, ?_⟩⟩
  · intro e him
    simp [rocblas_gemmt_batched_abi, him]
  · intro s evs him
    simp [rocblas_gemmt_batched_abi, him]
  · exact gemmt_impl_ok_of_oracles tag gext handle a
  · intro e him
    simp [rocblas_iamax_batched_abi, him]
  · intro s evs him
    simp [rocblas_iamax_batched_abi, him]
  · exact iamax_impl_ok_of_oracles tag rext handle n x incx batch_count result
  · intro e him
    simp [rocblas_iamin_strided_batched_abi, him]
  · intro s evs him
    simp [rocblas_iamin_strided_batched_abi, him]
  · exact iamin_impl_ok_of_oracles tag rext handle n x incx stridex batch_count result

/-- Concrete oracles where the numerics validator and the kernel template
throw distinct exceptions. -/
def extThrowW : GemmtExt :=
  ⟨fun _ => Except.error (RBExc.exc 7), Except.error (RBExc.exc 8),
   "f32_r", "--alpha 1", "--beta 0"⟩

/-- Witness for C6: at a concrete call whose numerics validator throws, the
impl propagates the exception and the exported entry point converts it; at
a concrete call that completes, the exported entry point returns the impl
status. -/
theorem abi_catches_exceptions_returns_impl_status_witness :
    rocblas_gemmt_batched_impl RBType.s extThrowW (some hNumW) aOkW
        = Except.error (RBExc.exc 7)
    ∧ rocblas_gemmt_batched_abi RBType.s extThrowW (some hNumW) aOkW
        = exception_to_rocblas_status
    ∧ rocblas_gemmt_batched_abi RBType.s extW (some hNumW) aOkW
        = rocblas_status.success :=
  ⟨rfl,
   (abi_catches_exceptions_returns_impl_status RBType.s extThrowW redExtW (some hNumW) aOkW
      4 (some 20) 1 0 2 (some 21)).1.1 (RBExc.exc 7) rfl,
   (abi_catches_exceptions_returns_impl_status RBType.s extW redExtW (some hNumW) aOkW
      4 (some 20) 1 0 2 (some 21)).1.2.1 rocblas_status.success
     (gemmtLogEvents RBType.s extW hNumW aOkW
       ++ [GemmtEvent.numerics true, GemmtEvent.kernel_call, GemmtEvent.numerics false]) rfl⟩

/-- Every event emitted by the reduction setup logging phase is the routine
log record. -/
theorem redLogEvents_shape (h : rocblas_handle_s) (fn : String) (e : RedEvent)
    (he : e ∈ redLogEvents h fn) : e = RedEvent.log_rec fn := by
  unfold redLogEvents at he
  split_ifs at he <;> simp_all

/-- The reduction setup emits no kernel event. -/
theorem reduction_setup_no_kernel_event (ext : RedExt) (handle : rocblas_handle)
    (a : RedArgs) (fn : String) (w : Option Nat) :
    RedEvent.kernel_call w ∉ (rocblas_reduction_setup ext handle a fn).2.2 := by
  intro hmem
  cases handle with
  | none => simp [rocblas_reduction_setup] at hmem
  | some h =>
    cases halloc : ext.alloc <;>
      (simp only [rocblas_reduction_setup, halloc] at hmem
       split_ifs at hmem <;>
         first
           | exact absurd (redLogEvents_shape h fn _ hmem) (by simp)
           | simp at hmem)

/-- When the reduction setup reports the continue sentinel, the handle is
live, the arena granted a workspace, and the setup result carries exactly
that workspace with the log records as its effects. -/
theorem reduction_setup_continue (ext : RedExt) (handle : rocblas_handle) (a : RedArgs)
    (fn : String)
    (hc : (rocblas_reduction_setup ext handle a fn).1 = rocblas_status.continue_status) :
    ∃ h w, handle = some h ∧ ext.alloc = some w
      ∧ rocblas_reduction_setup ext handle a fn
        = (rocblas_status.continue_status, some w, redLogEvents h fn) := by
  cases handle with
  | none => simp [rocblas_reduction_setup] at hc
  | some h =>
    cases halloc : ext.alloc with
    | none =>
      exfalso
      simp only [rocblas_reduction_setup, halloc] at hc
      split_ifs at hc
    | some w =>
      refine ⟨h, w, rfl, rfl, ?_⟩
      simp only [rocblas_reduction_setup, halloc] at hc ⊢
      split_ifs at hc ⊢
      simp_all

/-- C7: for every batched IAMAX and strided-batched IAMIN call, the
reduction setup either returns the continue sentinel with the workspace
pointer populated — and exactly then the kernel template is invoked,
receiving that workspace — or it returns a terminal status that the routine
returns to the caller unchanged without any kernel event; and when the
arguments pass validation but the arena denies the workspace, the setup
status is the out-of-memory error. -/
theorem reduction_setup_workspace_protocol
    (tag : RBType) (ext : RedExt) (handle : rocblas_handle)
    (n : Int) (x : Option Nat) (incx : Int) (stridex : Int) (batch_count : Int)
    (result : Option Nat) :
    (((rocblas_reduction_setup ext handle ⟨n, x, incx, 0, batch_count, result⟩
          (rocblas_iamax_batched_name tag)).1 = rocblas_status.continue_status →
      ∃ w, (rocblas_reduction_setup ext handle ⟨n, x, incx, 0, batch_count, result⟩
          (rocblas_iamax_batched_name tag)).2.1 = some w
        ∧ ∀ ks, ext.kernel = Except.ok ks →
          rocblas_iamax_batched_impl tag ext handle n x incx batch_count result
            = Except.ok (ks,
                (rocblas_reduction_setup ext handle ⟨n, x, incx, 0, batch_count, result⟩
                  (rocblas_iamax_batched_name tag)).2.2
                ++ [RedEvent.kernel_call (some w)]))
      ∧ ((rocblas_reduction_setup ext handle ⟨n, x, incx, 0, batch_count, result⟩
          (rocblas_iamax_batched_name tag)).1 ≠ rocblas_status.continue_status →
        rocblas_iamax_batched_impl tag ext handle n x incx batch_count result
          = Except.ok
              ((rocblas_reduction_setup ext handle ⟨n, x, incx, 0, batch_count, result⟩
                (rocblas_iamax_batched_name tag)).1,
               (rocblas_reduction_setup ext handle ⟨n, x, incx, 0, batch_count, result⟩
                (rocblas_iamax_batched_name tag)).2.2)
        ∧ ∀ w, RedEvent.kernel_call w
            ∉ (rocblas_reduction_setup ext handle ⟨n, x, incx, 0, batch_count, result⟩
                (rocblas_iamax_batched_name tag)).2.2))
    ∧ (((rocblas_reduction_setup ext handle ⟨n, x, incx, stridex, batch_count, result⟩
          (rocblas_iamin_strided_batched_name tag)).1 = rocblas_status.continue_status →
      ∃ w, (rocblas_reduction_setup ext handle ⟨n, x, incx, stridex, batch_count, result⟩
          (rocblas_iamin_strided_batched_name tag)).2.1 = some w
        ∧ ∀ ks, ext.kernel = Except.ok ks →
          rocblas_iamin_strided_batched_impl tag ext handle n x incx stridex batch_count result
            = Except.ok (ks,
                (rocblas_reduction_setup ext handle ⟨n, x, incx, stridex, batch_count, result⟩
                  (rocblas_iamin_strided_batched_name tag)).2.2
                ++ [RedEvent.kernel_call (some w)]))
      ∧ ((rocblas_reduction_setup ext handle ⟨n, x, incx, stridex, batch_count, result⟩
          (rocblas_iamin_strided_batched_name tag)).1 ≠ rocblas_status.continue_status →
        rocblas_iamin_strided_batched_impl tag ext handle n x incx stridex batch_count result
          = Except.ok
              ((rocblas_reduction_setup ext handle ⟨n, x, incx, stridex, batch_count, result⟩
                (rocblas_iamin_strided_batched_name tag)).1,
               (rocblas_reduction_setup ext handle ⟨n, x, incx, stridex, batch_count, result⟩
                (rocblas_iamin_strided_batched_name tag)).2.2)
        ∧ ∀ w, RedEvent.kernel_call w
            ∉ (rocblas_reduction_setup ext handle ⟨n, x, incx, stridex, batch_count, result⟩
                (rocblas_iamin_strided_batched_name tag)).2.2))
    ∧ (∀ (h : rocblas_handle_s) (a : RedArgs) (fn : String), handle = some h →
        h.device_memory_size_query = false → 0 < a.n → 0 < a.batch_count →
        a.x ≠ none → a.result ≠ none → ext.alloc = none →
        (rocblas_reduction_setup ext handle a fn).1 = rocblas_status.memory_error) := by
  refine ⟨⟨?_, ?_⟩, ⟨?_, ?_⟩, ?_⟩
  · intro hc
    obtain ⟨h, w, hh, halloc, hsetup⟩ := reduction_setup_continue ext handle
      ⟨n, x, incx, 0, batch_count, result⟩ (rocblas_iamax_batched_name tag) hc
    refine ⟨w, by rw [hsetup], ?_⟩
    intro ks hks
    simp [rocblas_iamax_batched_impl, hsetup, hks]
  · intro hne
    refine ⟨?_, fun w => reduction_setup_no_kernel_event ext handle _ _ w⟩
    simp only [rocblas_iamax_batched_impl]
    rw [if_pos hne]
  · intro hc
    obtain ⟨h, w, hh, halloc, hsetup⟩ := reduction_setup_continue ext handle
      ⟨n, x, incx, stridex, batch_count, result⟩ (rocblas_iamin_strided_batched_name tag) hc
    refine ⟨w, by rw [hsetup], ?_⟩
    intro ks hks
    simp [rocblas_iamin_strided_batched_impl, hsetup, hks]
  · intro hne
    refine ⟨?_, fun w => reduction_setup_no_kernel_event ext handle _ _ w⟩
    simp only [rocblas_iamin_strided_batched_impl]
    rw [if_pos hne]
  · intro h a fn hh hq hn hbc hx hres halloc
    subst hh
    have h1 : ¬a.batch_count < 0 := by omega
    have h2 : ¬(a.n ≤ 0 ∨ a.batch_count = 0) := by
      push_neg
      omega
    have h3 : ¬(a.x = none ∨ a.result = none) := by
      push_neg
      exact ⟨hx, hres⟩
    simp [rocblas_reduction_setup, hq, h1, h2, h3, halloc]

/-- Concrete reduction oracles whose arena denies the workspace. -/
def redExtNoMemW : RedExt := ⟨none, Except.ok rocblas_status.success⟩

/-- Witness for C7 at concrete inputs: the setup grants the workspace and
the kernel receives it; with a denying arena the setup reports
out-of-memory. -/
theorem reduction_setup_workspace_protocol_witness :
    (rocblas_reduction_setup redExtW (some hLogW) ⟨4, some 20, 1, 0, 2, some 21⟩
        (rocblas_iamax_batched_name RBType.s)).1 = rocblas_status.continue_status
    ∧ rocblas_iamax_batched_impl RBType.s redExtW (some hLogW) 4 (some 20) 1 2 (some 21)
        = Except.ok (rocblas_status.success,
            (rocblas_reduction_setup redExtW (some hLogW) ⟨4, some 20, 1, 0, 2, some 21⟩
              (rocblas_iamax_batched_name RBType.s)).2.2
            ++ [RedEvent.kernel_call (some 100)])
    ∧ (rocblas_reduction_setup redExtNoMemW (some hLogW) ⟨4, some 20, 1, 0, 2, some 21⟩
        (rocblas_iamax_batched_name RBType.s)).1 = rocblas_status.memory_error := by
  refine ⟨rfl, ?_, ?_⟩
  · obtain ⟨w, hw, himp⟩ := (reduction_setup_workspace_protocol RBType.s redExtW
      (some hLogW) 4 (some 20) 1 0 2 (some 21)).1.1 rfl
    have hw100 : (100 : Nat) = w := Option.some.inj hw
    rw [← hw100] at himp
    exact himp rocblas_status.success rfl
  · exact (reduction_setup_workspace_protocol RBType.s redExtNoMemW (some hLogW)
      4 (some 20) 1 0 2 (some 21)).2.2 hLogW ⟨4, some 20, 1, 0, 2, some 21⟩
      (rocblas_iamax_batched_name RBType.s) rfl rfl (by decide) (by decide)
      (by decide) (by decide) rfl

/-- Whenever a gemmt call on a live non-query handle completes normally,
its effect trace begins with exactly the records of the logging phase. -/
theorem gemmt_impl_events_extend_logs
    (tag : RBType) (ext : GemmtExt) (h : rocblas_handle_s) (a : GemmtArgs)
    (s : rocblas_status) (evs : List GemmtEvent)
    (hq : h.device_memory_size_query = false)
    (him : rocblas_gemmt_batched_impl tag ext (some h) a = Except.ok (s, evs)) :
    ∃ rest, evs = gemmtLogEvents tag ext h a ++ rest := by
  simp only [rocblas_gemmt_batched_impl, hq, Bool.false_eq_true, if_false, reduceIte] at him
  by_cases harg : rocblas_gemmt_arg_check a = rocblas_status.continue_status
  · simp only [harg, ne_eq, not_true_eq_false, if_false, reduceIte] at him
    by_cases hcn : h.check_numerics = true
    · simp only [hcn, if_true, reduceIte] at him
      cases hnum : ext.numerics true with
      | error e => simp [hnum] at him
      | ok s1 =>
        simp only [hnum] at him
        by_cases hs1 : s1 = rocblas_status.success
        · simp only [hs1, ne_eq, not_true_eq_false, if_false, reduceIte] at him
          cases hk : gemmtKernelPhase ext h with
          | error e => simp [hk] at him
          | ok r =>
            simp only [hk] at him
            injection him with him2
            injection him2 with hs2 hevs
            exact ⟨GemmtEvent.numerics true :: r.2, by rw [← hevs]; simp⟩
        · rw [if_pos hs1] at him
          injection him with him2
          injection him2 with hs2 hevs
          exact ⟨[GemmtEvent.numerics true], hevs.symm⟩
    · simp only [hcn, if_false, reduceIte] at him
      cases hk : gemmtKernelPhase ext h with
      | error e => simp [hk] at him
      | ok r =>
        simp only [hk] at him
        injection him with him2
        injection him2 with hs2 hevs
        exact ⟨r.2, hevs.symm⟩
  · have hne : rocblas_gemmt_arg_check a ≠ rocblas_status.continue_status := harg
    rw [if_pos hne] at him
    injection him with him2
    injection him2 with hs2 hevs
    exact ⟨[], by rw [← hevs, List.append_nil]⟩

/-- The gemmt argument set of the bench-log property of the spec, with
arbitrary pointer arguments: uplo upper, transA none, transB transpose,
n 4, k 3, lda 4, ldb 3, ldc 4, batch_count 2. -/
def benchArgs (alpha A B beta C : Option Nat) : GemmtArgs :=
  ⟨rocblas_fill.upper, rocblas_operation.none, rocblas_operation.transpose,
   4, 3, alpha, A, 4, B, 3, beta, C, 4, 2⟩

/-- C8: for every gemmt_batched call with bench logging enabled and
arguments uplo upper, transA none, transB transpose, n 4, k 3, lda 4,
ldb 3, ldc 4, batch_count 2, the bench record is emitted, it appears in the
trace of every normally completing call, and its rendered single-line form
is exactly the expected rocblas-bench command line, with the precision and
the two scalar placeholders resolved per the type and handle pointer
mode. -/
theorem gemmt_bench_log_line_exact
    (tag : RBType) (ext : GemmtExt) (h : rocblas_handle_s)
    (hq : h.device_memory_size_query = false) (hb : h.layer_mode.log_bench = true)
    (alpha A B beta C : Option Nat) :
    GemmtEvent.log (LogRecord.bench (gemmtBenchTokens ext (benchArgs alpha A B beta C)))
      ∈ gemmtLogEvents tag ext h (benchArgs alpha A B beta C)
    ∧ log_bench_render (gemmtBenchTokens ext (benchArgs alpha A B beta C))
      = "./rocblas-bench -f gemmt_batched -r " ++ ext.precision
        ++ " --uplo U --transposeA N --transposeB T -n 4 -k 3 " ++ ext.bench_alpha
        ++ " --lda 4 --ldb 3 " ++ ext.bench_beta ++ " --ldc 4 --batch_count 2"
    ∧ (∀ s evs,
        rocblas_gemmt_batched_impl tag ext (some h) (benchArgs alpha A B beta C)
          = Except.ok (s, evs) →
        GemmtEvent.log (LogRecord.bench (gemmtBenchTokens ext (benchArgs alpha A B beta C)))
          ∈ evs) := by
  have hmem : GemmtEvent.log (LogRecord.bench (gemmtBenchTokens ext
      (benchArgs alpha A B beta C))) ∈ gemmtLogEvents tag ext h (benchArgs alpha A B beta C) := by
    simp [gemmtLogEvents, hb]
  refine ⟨hmem, ?_, ?_⟩
  · have h4 : toString (4 : Int) = "4" := rfl
    have h3 : toString (3 : Int) = "3" := rfl
    have h2 : toString (2 : Int) = "2" := rfl
    apply String.ext
    simp [log_bench_render, gemmtBenchTokens, benchArgs, rocblas_fill_letter,
      rocblas_transpose_letter, h4, h3, h2, String.data_append]
  · intro s evs him
    obtain ⟨rest, hevs⟩ := gemmt_impl_events_extend_logs tag ext h
      (benchArgs alpha A B beta C) s evs hq him
    rw [hevs]
    exact List.mem_append_left rest hmem

/-- Witness for C8 at a concrete bench-logging handle and null data
pointers. -/
theorem gemmt_bench_log_line_exact_witness :
    hLogW.device_memory_size_query = false
    ∧ hLogW.layer_mode.log_bench = true
    ∧ GemmtEvent.log
        (LogRecord.bench (gemmtBenchTokens extW (benchArgs none none none none none)))
        ∈ gemmtLogEvents RBType.s extW hLogW (benchArgs none none none none none)
    ∧ log_bench_render (gemmtBenchTokens extW (benchArgs none none none none none))
      = "./rocblas-bench -f gemmt_batched -r " ++ extW.precision
        ++ " --uplo U --transposeA N --transposeB T -n 4 -k 3 " ++ extW.bench_alpha
        ++ " --lda 4 --ldb 3 " ++ extW.bench_beta ++ " --ldc 4 --batch_count 2" :=
  ⟨rfl, rfl,
   (gemmt_bench_log_line_exact RBType.s extW hLogW rfl rfl none none none none none).1,
   (gemmt_bench_log_line_exact RBType.s extW hLogW rfl rfl none none none none none).2.1⟩

/-- C9: for every routine, a call with batch_count equal to zero on a live
non-query handle returns the success status with nothing but log records in
its effect trace — no numerics check, no kernel dispatch, hence no data
pointer dereferenced — for every choice of the remaining arguments,
including all-null data pointers. -/
theorem batch_count_zero_success_no_deref
    (tag : RBType) (gext : GemmtExt) (rext : RedExt) (h : rocblas_handle_s)
    (hq : h.device_memory_size_query = false) :
    (∀ a : GemmtArgs, a.batch_count = 0 →
      rocblas_gemmt_batched_impl tag gext (some h) a
        = Except.ok (rocblas_status.success, gemmtLogEvents tag gext h a)
      ∧ ∀ e ∈ gemmtLogEvents tag gext h a, e.is_log = true)
    ∧ (∀ (n : Int) (x : Option Nat) (incx : Int) (result : Option Nat),
      rocblas_iamax_batched_impl tag rext (some h) n x incx 0 result
        = Except.ok (rocblas_status.success,
            redLogEvents h (rocblas_iamax_batched_name tag)))
    ∧ (∀ (n : Int) (x : Option Nat) (incx : Int) (stridex : Int) (result : Option Nat),
      rocblas_iamin_strided_batched_impl tag rext (some h) n x incx stridex 0 result
        = Except.ok (rocblas_status.success,
            redLogEvents h (rocblas_iamin_strided_batched_name tag))) := by
  refine ⟨?_, ?_, ?_⟩
  · intro a hbc
    have harg : rocblas_gemmt_arg_check a = rocblas_status.success := by
      simp [rocblas_gemmt_arg_check, hbc]
    refine ⟨?_, gemmtLogEvents_is_log tag gext h a⟩
    simp [rocblas_gemmt_batched_impl, hq, harg]
  · intro n x incx result
    simp [rocblas_iamax_batched_impl, rocblas_reduction_setup, hq]
  · intro n x incx stridex result
    simp [rocblas_iamin_strided_batched_impl, rocblas_reduction_setup, hq]

/-- Concrete gemmt argument set with a zero batch count and all data
pointers null. -/
def aZeroW : GemmtArgs :=
  ⟨rocblas_fill.upper, rocblas_operation.none, rocblas_operation.transpose,
   4, 3, none, none, 4, none, 3, none, none, 4, 0⟩

/-- Witness for C9 at a concrete handle, zero batch count and null data
pointers for all three routines. -/
theorem batch_count_zero_success_no_deref_witness :
    hLogW.device_memory_size_query = false
    ∧ aZeroW.batch_count = 0
    ∧ rocblas_gemmt_batched_impl RBType.s extW (some hLogW) aZeroW
        = Except.ok (rocblas_status.success, gemmtLogEvents RBType.s extW hLogW aZeroW)
    ∧ rocblas_iamax_batched_impl RBType.s redExtW (some hLogW) 4 none 1 0 none
        = Except.ok (rocblas_status.success,
            redLogEvents hLogW (rocblas_iamax_batched_name RBType.s))
    ∧ rocblas_iamin_strided_batched_impl RBType.s redExtW (some hLogW) 4 none 1 7 0 none
        = Except.ok (rocblas_status.success,
            redLogEvents hLogW (rocblas_iamin_strided_batched_name RBType.s)) :=
  ⟨rfl, rfl,
   ((batch_count_zero_success_no_deref RBType.s extW redExtW hLogW rfl).1 aZeroW rfl).1,
   (batch_count_zero_success_no_deref RBType.s extW redExtW hLogW rfl).2.1 4 none 1 none,
   (batch_count_zero_success_no_deref RBType.s extW redExtW hLogW rfl).2.2 4 none 1 7 none⟩

/-- Whether a log key is written flag-style, beginning with two dashes. -/
def flag_style (s : String) : Bool :=
  s.data.take 2 = ['-', '-']

/-- C10: in every gemmt_batched call with profile logging enabled, the
emitted profile record keys are, in order, uplo, transA, the literal
flag-style string beginning with two dashes for the transB parameter, N, K,
lda, ldb, ldc and batch_count; the transB entry is the only key written
flag-style, every other key being a bare name; and the record appears in
the trace of every normally completing call. -/
theorem gemmt_profile_log_transposeB_flag_key
    (tag : RBType) (ext : GemmtExt) (h : rocblas_handle_s) (a : GemmtArgs)
    (hq : h.device_memory_size_query = false) (hp : h.layer_mode.log_profile = true) :
    GemmtEvent.log (LogRecord.profile (rocblas_gemmt_name tag) (gemmtProfilePairs a))
      ∈ gemmtLogEvents tag ext h a
    ∧ (gemmtProfilePairs a).map Prod.fst
      = ["uplo", "transA", "--transposeB", "N", "K", "lda", "ldb", "ldc", "batch_count"]
    ∧ (gemmtProfilePairs a).get? 2
      = some ("--transposeB", rocblas_transpose_letter a.transB)
    ∧ flag_style "--transposeB" = true
    ∧ (∀ kv ∈ gemmtProfilePairs a, kv.1 ≠ "--transposeB" → flag_style kv.1 = false)
    ∧ (∀ s evs, rocblas_gemmt_batched_impl tag ext (some h) a = Except.ok (s, evs) →
        GemmtEvent.log (LogRecord.profile (rocblas_gemmt_name tag) (gemmtProfilePairs a))
          ∈ evs) := by
  have hmem : GemmtEvent.log (LogRecord.profile (rocblas_gemmt_name tag)
      (gemmtProfilePairs a)) ∈ gemmtLogEvents tag ext h a := by
    simp [gemmtLogEvents, hp]
  refine ⟨hmem, by simp [gemmtProfilePairs], rfl, by decide, ?_, ?_⟩
  · intro kv hkv hne
    simp only [gemmtProfilePairs, List.mem_cons, List.not_mem_nil, or_false] at hkv
    rcases hkv with hk | hk | hk | hk | hk | hk | hk | hk | hk <;> subst hk <;>
      simp only [] <;>
      first
        | exact absurd rfl hne
        | decide
  · intro s evs him
    obtain ⟨rest, hevs⟩ := gemmt_impl_events_extend_logs tag ext h a s evs hq him
    rw [hevs]
    exact List.mem_append_left rest hmem

/-- Witness for C10 at a concrete profile-logging handle and the concrete
bench argument set. -/
theorem gemmt_profile_log_transposeB_flag_key_witness :
    hLogW.device_memory_size_query = false
    ∧ hLogW.layer_mode.log_profile = true
    ∧ GemmtEvent.log (LogRecord.profile (rocblas_gemmt_name RBType.s) (gemmtProfilePairs aW))
        ∈ gemmtLogEvents RBType.s extW hLogW aW
    ∧ (gemmtProfilePairs aW).map Prod.fst
      = ["uplo", "transA", "--transposeB", "N", "K", "lda", "ldb", "ldc", "batch_count"] :=
  ⟨rfl, rfl,
   (gemmt_profile_log_transposeB_flag_key RBType.s extW hLogW aW rfl rfl).1,
   (gemmt_profile_log_transposeB_flag_key RBType.s extW hLogW aW rfl rfl).2.1⟩
